import Mathlib

/-!
# Verification of the y-web-transport client provider

Shallow embedding of the repository's framing codec (`encoding.ts`),
connection manager (`connection.ts`), provider (`provider.ts`) and
awareness pipeline (`awareness-manager.ts`).  Byte buffers are modelled
as `List Nat` (each element a byte value), machine integers as `Nat`
with explicit `/`/`%` where JavaScript's `>> 8` and `& 0xff` occur, and
millisecond delays as `ℚ` (so that `Math.random() * 1000` becomes an
arbitrary rational jitter parameter).  Fallible operations return
`Except`/`Option`.  Stateful classes become explicit state records with
their methods as state transformers; where a method reports connection
statuses through the `onStatusChange` callback, the transformer returns
the list of statuses reported, in order.
-/

set_option maxRecDepth 8000

namespace YWebTransport

/-! ## Protocol constants (`types.ts`, `Protocol`) -/

def Protocol.STREAM_SYNC : Nat := 0x01
def Protocol.MSG_SYNC_STEP1 : Nat := 0x00
def Protocol.MSG_SYNC_STEP2 : Nat := 0x01
def Protocol.MSG_UPDATE : Nat := 0x02
def Protocol.MSG_AWARENESS : Nat := 0x03

/-! ## Framing codec (`encoding.ts`) -/

/-- `frameMessage` from `encoding.ts`: prefix the payload with a 2-byte
big-endian length.  Throws (`Except.error`) when the payload exceeds
65535 bytes.  `(length >> 8) & 0xff` is written `length / 256 % 256`
and `length & 0xff` is written `length % 256`. -/
def frameMessage (data : List Nat) : Except String (List Nat) :=
  if data.length > 65535 then
    Except.error "Message too large"
  else
    Except.ok (data.length / 256 % 256 :: data.length % 256 :: data)

/-- `readFramedMessages` from `encoding.ts`: repeatedly strip a 2-byte
big-endian length header and the corresponding body while a complete
frame is available; return the extracted frames together with the
unconsumed tail.  The source's `while` loop over an `offset` becomes
recursion on the remaining buffer. -/
def readFramedMessages : List Nat → List (List Nat) × List Nat
  | b0 :: b1 :: rest =>
    let len := b0 * 256 + b1
    if rest.length < len then
      ([], b0 :: b1 :: rest)
    else
      let r := readFramedMessages (rest.drop len)
      (rest.take len :: r.1, r.2)
  | buffer => ([], buffer)
termination_by buffer => buffer.length
decreasing_by
  simp only [List.length_drop, List.length_cons]
  omega

/-! ## Connection manager (`connection.ts`) -/

/-- `ConnectionManager.sendSyncMessage` from `connection.ts`.  When no
stream writer is held the send is dropped (`none`).  Otherwise the
payload is framed *inline* — `framed[0] = (data.length >> 8) & 0xff`,
`framed[1] = data.length & 0xff` — with **no** size check, and the
framed bytes are written (`some framed`). -/
def sendSyncMessage (writerOpen : Bool) (data : List Nat) : Option (List Nat) :=
  if writerOpen = false then
    none
  else
    some (data.length / 256 % 256 :: data.length % 256 :: data)

/-- Connection status values (`types.ts`, `ConnectionStatus`). -/
inductive ConnStatus where
  | connecting
  | connected
  | disconnected
  | reconnecting
deriving DecidableEq, Repr

/-- The mutable `ConnectionManager` fields that drive the lifecycle
claims, plus a log of transport-close requests.  Stream and transport
handles are booleans ("held or not"); the reconnect timer holds the
armed delay in milliseconds when pending. -/
structure CMState where
  reconnectAttempts : Nat
  maxReconnectAttempts : Nat
  reconnectBaseDelay : ℚ
  reconnectMaxDelay : ℚ
  transport : Bool
  syncStream : Bool
  syncWriter : Bool
  syncReader : Bool
  reconnectTimer : Option ℚ
  destroyed : Bool
  closeRequests : List (Nat × String)
deriving DecidableEq, Repr

/-- `ConnectionManager.cleanup()`: release the writer and reader locks
and clear the stream and transport handles. -/
def cleanup (s : CMState) : CMState :=
  { s with syncWriter := false, syncReader := false,
           syncStream := false, transport := false }

/-- `ConnectionManager.scheduleReconnect()`: give up silently once
`reconnectAttempts >= maxReconnectAttempts`; otherwise report
`reconnecting`, increment the counter and arm the timer for
`min(baseDelay * 2 ^ attempts + jitter, maxDelay)`, where `jitter`
stands for `Math.random() * 1000`.  Returns the new state together
with the statuses reported, in order. -/
def scheduleReconnect (jitter : ℚ) (s : CMState) : CMState × List ConnStatus :=
  if s.maxReconnectAttempts ≤ s.reconnectAttempts then
    (s, [])
  else
    let delay :=
      min (s.reconnectBaseDelay * 2 ^ s.reconnectAttempts + jitter) s.reconnectMaxDelay
    ({ s with reconnectAttempts := s.reconnectAttempts + 1,
              reconnectTimer := some delay },
      [ConnStatus.reconnecting])

/-- `ConnectionManager.handleError(error)`: clean up, forward the error
to the error callback, and — unless destroyed — invoke the reconnect
policy.  No `disconnected` status is reported on this path. -/
def handleError (jitter : ℚ) (s : CMState) : CMState × List ConnStatus :=
  let s1 := cleanup s
  if s1.destroyed then (s1, []) else scheduleReconnect jitter s1

/-- `ConnectionManager.handleClose(closeInfo)`: clean up, forward the
close event, report `disconnected`, and — unless destroyed — invoke
the reconnect policy.  This is the callback installed on the
transport's `closed` future during `connect()`. -/
def handleClose (jitter : ℚ) (s : CMState) : CMState × List ConnStatus :=
  let s1 := cleanup s
  if s1.destroyed then
    (s1, [ConnStatus.disconnected])
  else
    let r := scheduleReconnect jitter s1
    (r.1, ConnStatus.disconnected :: r.2)

/-- `ConnectionManager.disconnect()`: cancel any pending reconnect
timer, request a transport close with code `1000` and reason
`"Client disconnect"` when a transport is held, clean up, and report
`disconnected`. -/
def disconnect (s : CMState) : CMState × List ConnStatus :=
  let s1 := { s with reconnectTimer := none }
  let s2 :=
    if s1.transport then
      { s1 with closeRequests := s1.closeRequests ++ [(1000, "Client disconnect")] }
    else s1
  (cleanup s2, [ConnStatus.disconnected])

/-- `ConnectionManager.destroy()`: set the destroyed flag, then
`disconnect()`. -/
def destroy (s : CMState) : CMState × List ConnStatus :=
  disconnect { s with destroyed := true }

/-- The run of a manager against a transport whose open always fails:
each `connect()` performs one transport open, fails, and enters
`handleError`; whenever the reconnect policy armed the timer (it
reported a status), the timer fires and `connect()` re-enters.
Returns the total number of transport opens performed. -/
def failingRun (jitter : ℚ) (s : CMState) : Nat :=
  if h : (handleError jitter s).2 = [] then 1
  else
    1 + failingRun jitter { (handleError jitter s).1 with reconnectTimer := none }
termination_by s.maxReconnectAttempts - s.reconnectAttempts
decreasing_by
  have h3 : (handleError jitter s).1.reconnectAttempts = s.reconnectAttempts + 1 ∧
      s.reconnectAttempts < s.maxReconnectAttempts ∧
      (handleError jitter s).1.maxReconnectAttempts = s.maxReconnectAttempts := by
    by_cases hd : s.destroyed <;>
      by_cases hm : s.maxReconnectAttempts ≤ s.reconnectAttempts <;>
      simp [handleError, scheduleReconnect, cleanup, hd, hm] at h ⊢
    omega
  simp only [h3.1, h3.2.2]
  omega

/-! ## Provider (`provider.ts`) -/

/-- lib0 `encoding.writeVarUint`: 7 bits per byte, low bits first, the
high bit marking continuation.  `0x80 | (0x7f & num)` is written
`128 + num % 128` and the final `0x7f & num` is written `num % 128`. -/
def writeVarUint (num : Nat) : List Nat :=
  if 127 < num then (128 + num % 128) :: writeVarUint (num / 128) else [num % 128]
termination_by num
decreasing_by exact Nat.div_lt_self (by omega) (by omega)

/-- `WebTransportProvider.handleDocUpdate(update, origin)`: ignore
updates whose origin is the provider itself; drop the update when not
connected; otherwise build the outgoing message with
`writeVarUint(MSG_UPDATE)` followed by `writeVarUint8Array(update)` —
i.e. the update's length as a var-uint and then the update bytes —
and hand it to `sendSyncMessage`. -/
def handleDocUpdate (connected : Bool) (originIsSelf : Bool)
    (update : List Nat) : Option (List Nat) :=
  if originIsSelf then none
  else if connected = false then none
  else some (writeVarUint Protocol.MSG_UPDATE ++ (writeVarUint update.length ++ update))

/-- The dispatch performed by `WebTransportProvider.handleSyncMessage`
on one received frame: which handler runs and which byte slice it is
given.  `noop` is the early return on an empty frame. -/
inductive SyncAction where
  | noop
  | syncStep1 (d : List Nat)
  | syncStep2 (d : List Nat)
  | update (d : List Nat)
  | awareness (d : List Nat)
  | unknown (t : Nat)
deriving DecidableEq, Repr

/-- `WebTransportProvider.handleSyncMessage(data)`: return immediately
on a zero-length frame; otherwise dispatch on the first byte.  The
`MSG_UPDATE` branch hands `data.slice(1)` to `handleRemoteUpdate`,
which applies those bytes directly as a document update; the
`MSG_AWARENESS` branch hands the *whole* frame to the awareness
pipeline. -/
def handleSyncMessage (data : List Nat) : SyncAction :=
  if data.length = 0 then SyncAction.noop
  else
    let messageType := data.headI
    if messageType = Protocol.MSG_SYNC_STEP1 then SyncAction.syncStep1 (data.drop 1)
    else if messageType = Protocol.MSG_SYNC_STEP2 then SyncAction.syncStep2 (data.drop 1)
    else if messageType = Protocol.MSG_UPDATE then SyncAction.update (data.drop 1)
    else if messageType = Protocol.MSG_AWARENESS then SyncAction.awareness data
    else SyncAction.unknown messageType

/-- Entries appearing on the provider's observable surface, plus an
internal marker for the `startSync()` call. -/
inductive ProvEvent where
  | syncedEvt (b : Bool)
  | statusEvt (st : ConnStatus)
  | startSync
deriving DecidableEq, Repr

/-- The provider fields driven by `handleStatusChange`. -/
structure ProvState where
  connected : Bool
  synced : Bool
  events : List ProvEvent
deriving DecidableEq, Repr

/-- `WebTransportProvider.handleStatusChange(status)`: update
`_connected`; on a fresh `connected` start the sync handshake; on
`disconnected` while previously connected clear `_synced` and emit
`synced(false)`; always emit the `status` event. -/
def handleStatusChange (st : ConnStatus) (p : ProvState) : ProvState :=
  let wasConnected := p.connected
  let p1 := { p with connected := decide (st = ConnStatus.connected) }
  let p2 :=
    if st = ConnStatus.connected ∧ wasConnected = false then
      { p1 with events := p1.events ++ [ProvEvent.startSync] }
    else if st = ConnStatus.disconnected ∧ wasConnected = true then
      { p1 with synced := false, events := p1.events ++ [ProvEvent.syncedEvt false] }
    else p1
  { p2 with events := p2.events ++ [ProvEvent.statusEvt st] }

/-- Deliver a sequence of manager status reports to the provider in
order. -/
def deliverStatuses (p : ProvState) (sts : List ConnStatus) : ProvState :=
  sts.foldl (fun q st => handleStatusChange st q) p

/-- The provider lifecycle fields behind `destroy()`, together with a
model of the lib0 `Observable` subscription list on the document:
every `this.handleDocUpdate.bind(this)` call allocates a *fresh*
function object, identified here by a `Nat` drawn from `nextBindId`;
`doc.on` appends the given function and `doc.off` removes by function
identity. -/
structure ProvLifecycle where
  destroyed : Bool
  docObservers : List Nat
  nextBindId : Nat
  awarenessDestroyed : Bool
  awarenessManagerDestroyed : Bool
  connectionDestroyed : Bool
deriving DecidableEq, Repr

/-- Provider construction: `doc.on('update', this.handleDocUpdate.bind(this))`
subscribes the freshly bound handler (function id 0). -/
def mkProvider : ProvLifecycle :=
  { destroyed := false, docObservers := [0], nextBindId := 1,
    awarenessDestroyed := false, awarenessManagerDestroyed := false,
    connectionDestroyed := false }

/-- `WebTransportProvider.destroy()`: a no-op when already destroyed;
otherwise destroy the awareness object, the awareness manager and the
connection, then call `doc.off('update', this.handleDocUpdate.bind(this))`
— where the `bind` creates a *new* function object, which `off`
removes by identity from the observer list. -/
def providerDestroy (p : ProvLifecycle) : ProvLifecycle :=
  if p.destroyed then p
  else
    let f := p.nextBindId
    { destroyed := true,
      docObservers := p.docObservers.filter (fun g => g ≠ f),
      nextBindId := p.nextBindId + 1,
      awarenessDestroyed := true, awarenessManagerDestroyed := true,
      connectionDestroyed := true }

/-- The handlers the document invokes when it emits an update event. -/
def docUpdateInvokes (p : ProvLifecycle) : List Nat := p.docObservers

/-! ## Awareness state codec and pipeline
(`encoding.ts`, `awareness-manager.ts`) -/

/-- JSON values, the image of `JSON.parse` on awareness state
payloads.  Object keys and string values are byte lists. -/
inductive JVal where
  | jnull
  | jbool (b : Bool)
  | jnum (n : Int)
  | jstr (s : List Nat)
  | jarr (xs : List JVal)
  | jobj (fields : List (List Nat × JVal))
deriving Repr

/-- Drop leading JSON whitespace (space, tab, line feed, carriage
return). -/
def skipWs : List Nat → List Nat
  | c :: rest => if c = 32 ∨ c = 9 ∨ c = 10 ∨ c = 13 then skipWs rest else c :: rest
  | [] => []

/-- ASCII decimal digit test. -/
def isDigit (c : Nat) : Bool := decide (48 ≤ c ∧ c ≤ 57)

/-- Read a JSON string body up to the closing quote (byte 34),
returning the content and the remainder.  Escape sequences are kept
verbatim, a simplification of `JSON.parse` that does not affect
whether parsing succeeds on the inputs considered here. -/
def parseString : List Nat → Option (List Nat × List Nat)
  | [] => none
  | c :: rest =>
    if c = 34 then some ([], rest)
    else
      match parseString rest with
      | some (s, r) => some (c :: s, r)
      | none => none

/-- Split off a maximal run of leading decimal digits. -/
def parseDigits : List Nat → List Nat × List Nat
  | c :: rest =>
    if isDigit c then
      let r := parseDigits rest
      (c :: r.1, r.2)
    else ([], c :: rest)
  | [] => ([], [])

/-- The numeric value of a digit run. -/
def digitsToNat (ds : List Nat) : Nat :=
  ds.foldl (fun a c => a * 10 + (c - 48)) 0

mutual

/-- Recursive descent over one JSON value; `fuel` bounds the nesting
and is decremented on every sub-parse, which always follows the
consumption of at least one input byte.  Numbers are modelled as
(optionally negated) integers. -/
def parseVal : Nat → List Nat → Option (JVal × List Nat)
  | 0, _ => none
  | fuel + 1, bytes =>
    match skipWs bytes with
    | [] => none
    | c :: rest =>
      if c = 110 then
        match rest with
        | 117 :: 108 :: 108 :: r => some (JVal.jnull, r)
        | _ => none
      else if c = 116 then
        match rest with
        | 114 :: 117 :: 101 :: r => some (JVal.jbool true, r)
        | _ => none
      else if c = 102 then
        match rest with
        | 97 :: 108 :: 115 :: 101 :: r => some (JVal.jbool false, r)
        | _ => none
      else if c = 34 then
        match parseString rest with
        | some (s, r) => some (JVal.jstr s, r)
        | none => none
      else if c = 91 then
        parseElems fuel rest
      else if c = 123 then
        parseFields fuel rest
      else if c = 45 then
        match parseDigits rest with
        | ([], _) => none
        | (ds, r) => some (JVal.jnum (-(digitsToNat ds : Int)), r)
      else if isDigit c then
        let r := parseDigits rest
        some (JVal.jnum (digitsToNat (c :: r.1) : Int), r.2)
      else none

/-- Array body after the opening bracket. -/
def parseElems : Nat → List Nat → Option (JVal × List Nat)
  | 0, _ => none
  | fuel + 1, bytes =>
    match skipWs bytes with
    | 93 :: r => some (JVal.jarr [], r)
    | bs =>
      match parseVal fuel bs with
      | none => none
      | some (v, r1) =>
        match parseMoreElems fuel r1 with
        | none => none
        | some (vs, r2) => some (JVal.jarr (v :: vs), r2)

/-- Further comma-separated array elements up to the closing bracket. -/
def parseMoreElems : Nat → List Nat → Option (List JVal × List Nat)
  | 0, _ => none
  | fuel + 1, bytes =>
    match skipWs bytes with
    | 93 :: r => some ([], r)
    | 44 :: r =>
      match parseVal fuel r with
      | none => none
      | some (v, r1) =>
        match parseMoreElems fuel r1 with
        | none => none
        | some (vs, r2) => some (v :: vs, r2)
    | _ => none

/-- Object body after the opening byte 123. -/
def parseFields : Nat → List Nat → Option (JVal × List Nat)
  | 0, _ => none
  | fuel + 1, bytes =>
    match skipWs bytes with
    | 125 :: r => some (JVal.jobj [], r)
    | bs =>
      match parseOneField fuel bs with
      | none => none
      | some (kv, r1) =>
        match parseMoreFields fuel r1 with
        | none => none
        | some (kvs, r2) => some (JVal.jobj (kv :: kvs), r2)

/-- One `"key": value` member. -/
def parseOneField : Nat → List Nat → Option ((List Nat × JVal) × List Nat)
  | 0, _ => none
  | fuel + 1, bytes =>
    match skipWs bytes with
    | 34 :: r =>
      match parseString r with
      | none => none
      | some (k, r1) =>
        match skipWs r1 with
        | 58 :: r2 =>
          match parseVal fuel r2 with
          | none => none
          | some (v, r3) => some ((k, v), r3)
        | _ => none
    | _ => none

/-- Further comma-separated members up to the closing byte 125. -/
def parseMoreFields : Nat → List Nat → Option (List (List Nat × JVal) × List Nat)
  | 0, _ => none
  | fuel + 1, bytes =>
    match skipWs bytes with
    | 125 :: r => some ([], r)
    | 44 :: r =>
      match parseOneField fuel r with
      | none => none
      | some (kv, r1) =>
        match parseMoreFields fuel r1 with
        | none => none
        | some (kvs, r2) => some (kv :: kvs, r2)
    | _ => none

end

/-- Parse a whole buffer as a single JSON value with nothing but
whitespace after it; `none` models a `JSON.parse` throw. -/
def jsonParse (bytes : List Nat) : Option JVal :=
  match parseVal (bytes.length + 1) bytes with
  | none => none
  | some (v, r) =>
    match skipWs r with
    | [] => some v
    | _ => none

/-- `decodeState` from `encoding.ts`.  Modelled platform behaviour: the
source runs `JSON.parse(new TextDecoder().decode(data))`; here the
UTF-8 decoding is the identity on the byte values and `JSON.parse` is
`jsonParse`, which agrees with it on success/failure for the ASCII
payloads considered in the theorems (in particular, the empty buffer
never parses and a well-formed object always does). -/
def decodeState (data : List Nat) : Option JVal := jsonParse data

/-- Big-endian 32-bit read (`DataView.getUint32(_, false)`). -/
def u32be (a b c d : Nat) : Nat := ((a * 256 + b) * 256 + c) * 256 + d

/-- `decodeAwarenessDatagram` from `encoding.ts`: fail on fewer than 8
bytes, otherwise read the big-endian `clientId` and `clock` and return
the remaining state bytes. -/
def decodeAwarenessDatagram (data : List Nat) : Except String (Nat × Nat × List Nat) :=
  match data with
  | a :: b :: c :: d :: e :: f :: g :: h :: state =>
    Except.ok (u32be a b c d, u32be e f g h, state)
  | _ => Except.error "Invalid awareness datagram: too short"

/-- An awareness change event as emitted by the pipeline. -/
structure AwChange where
  added : List Nat
  updated : List Nat
  removed : List Nat
  origin : String
deriving Repr

/-- The `AwarenessManager` fields touched by `handleDatagram`:
the local client id, the per-client `remoteClocks` map (association
list in `Map` insertion order), the current value of the `_remote`
field written through `setLocalStateField` (the call replaces the
field with a one-entry object: decoded state, `_clock` and
`_timestamp`), and the `change` events emitted on the awareness
object. -/
structure AMState where
  localClientID : Nat
  remoteClocks : List (Nat × Nat)
  remoteField : Option (Nat × JVal × Nat × Nat)
  changeEvents : List AwChange
deriving Repr

/-- `this.remoteClocks.get(clientId) ?? 0`. -/
def mapGetD (m : List (Nat × Nat)) (k : Nat) : Nat :=
  match m.lookup k with
  | some v => v
  | none => 0

/-- `Map.set`: overwrite in place when the key exists, append
otherwise. -/
def mapSet (m : List (Nat × Nat)) (k v : Nat) : List (Nat × Nat) :=
  if (m.lookup k).isSome then
    m.map (fun kv => if kv.1 = k then (k, v) else kv)
  else m ++ [(k, v)]

/-- `AwarenessManager.handleDatagram(data)`, with `now` standing for
`Date.now()`.  The whole body runs in a `try`/`catch` that swallows
decode failures: a short datagram aborts before any mutation, but a
`JSON.parse` failure aborts *after* `remoteClocks.set` has already
run. -/
def handleDatagram (now : Nat) (data : List Nat) (am : AMState) : AMState :=
  match decodeAwarenessDatagram data with
  | Except.error _ => am
  | Except.ok (clientId, clock, stateBytes) =>
    if clientId = am.localClientID then am
    else if clock ≤ mapGetD am.remoteClocks clientId then am
    else
      let am1 := { am with remoteClocks := mapSet am.remoteClocks clientId clock }
      match decodeState stateBytes with
      | none => am1
      | some st =>
        { am1 with
          remoteField := some (clientId, st, clock, now),
          changeEvents := am1.changeEvents ++
            [{ added := [], updated := [clientId], removed := [],
               origin := "remote-datagram" }] }

/-! ## Concrete states used by the claims -/

/-- The 70,000-byte payload of the spec's oversize-frame scenario. -/
def oversizePayload : List Nat := List.replicate 70000 0

/-- A connected manager: transport ready, stream open, both locks held,
no pending timer, default reconnect tuning, attempts reset. -/
def connectedCM : CMState :=
  { reconnectAttempts := 0, maxReconnectAttempts := 10,
    reconnectBaseDelay := 1000, reconnectMaxDelay := 30000,
    transport := true, syncStream := true, syncWriter := true,
    syncReader := true, reconnectTimer := none, destroyed := false,
    closeRequests := [] }

/-- A provider that has connected and completed the sync handshake. -/
def connectedProv : ProvState :=
  { connected := true, synced := true, events := [] }

/-- The manager of the spec's reconnection scenario: `maxAttempts = 3`,
`baseDelay = 10 ms`, `maxDelay = 100 ms`, never yet connected. -/
def alwaysFailCM : CMState :=
  { reconnectAttempts := 0, maxReconnectAttempts := 3,
    reconnectBaseDelay := 10, reconnectMaxDelay := 100,
    transport := false, syncStream := false, syncWriter := false,
    syncReader := false, reconnectTimer := none, destroyed := false,
    closeRequests := [] }

/-- A fresh awareness manager with local client id 42 and no remote
state recorded. -/
def freshAM : AMState :=
  { localClientID := 42, remoteClocks := [], remoteField := none,
    changeEvents := [] }

end YWebTransport

namespace YWebTransport

/-! ## Theorems -/

theorem oversizePayload_length : oversizePayload.length = 70000 := by
  rw [oversizePayload, List.length_replicate]

/-- C1: `frameMessage` rejects the 70 kB payload, but the send primitive
`sendSyncMessage` performs no size check: instead of raising
`FrameTooLarge` it writes a frame whose 2-byte length prefix decodes
to 4464 = 70000 % 65536, not to the payload length. -/
theorem c1_sendSyncMessage_no_size_check :
    frameMessage oversizePayload = Except.error "Message too large" ∧
    sendSyncMessage true oversizePayload = some (17 :: 112 :: oversizePayload) ∧
    17 * 256 + 112 ≠ oversizePayload.length := by
  refine ⟨?_, ?_, ?_⟩
  · rw [frameMessage, oversizePayload_length]
    norm_num
  · rw [sendSyncMessage, oversizePayload_length]
    norm_num
  · rw [oversizePayload_length]
    norm_num

/-- C8: decoding the framed encoding of any payload of at most 65535
bytes yields exactly that payload and an empty remainder. -/
theorem c8_frame_roundtrip (p : List Nat) (h : p.length ≤ 65535) :
    ∃ f, frameMessage p = Except.ok f ∧ readFramedMessages f = ([p], []) := by
  refine ⟨p.length / 256 % 256 :: p.length % 256 :: p, ?_, ?_⟩
  · simp [frameMessage]
    omega
  · have hlt : p.length / 256 < 256 := by omega
    have hlen : p.length / 256 % 256 * 256 + p.length % 256 = p.length := by
      rw [Nat.mod_eq_of_lt hlt]
      omega
    rw [readFramedMessages]
    simp only [hlen]
    rw [if_neg (by omega)]
    simp [readFramedMessages]

/-- C8 witness at the concrete payload `[9, 8, 7]`. -/
theorem c8_frame_roundtrip_witness :
    ([9, 8, 7] : List Nat).length ≤ 65535 ∧
    ∃ f, frameMessage [9, 8, 7] = Except.ok f ∧
      readFramedMessages f = ([[9, 8, 7]], []) :=
  ⟨by decide, c8_frame_roundtrip [9, 8, 7] (by decide)⟩

/-- C2: a local update `[5]` from a foreign origin on a connected
provider is sent as `[0x02, 0x01, 0x05]` — message type, then the
*var-uint length* of the update, then the update — so the bytes after
the type tag are not the update itself; the repository's own
`MSG_UPDATE` receive path would apply `[0x01, 0x05]` as the update.
Self-origin and disconnected updates produce nothing. -/
theorem c2_update_message_layout :
    handleDocUpdate true false [5] = some [2, 1, 5] ∧
    List.drop 1 [2, 1, 5] ≠ [5] ∧
    handleSyncMessage [2, 1, 5] = SyncAction.update [1, 5] ∧
    handleDocUpdate true true [5] = none ∧
    handleDocUpdate false false [5] = none := by
  refine ⟨?_, by decide, by decide, by decide, by decide⟩
  simp [handleDocUpdate, writeVarUint, Protocol.MSG_UPDATE]

/-- C3 (amended): on a transport-close loss the provider observes
`disconnected` and clears `synced`, emitting `synced(false)`; on a
stream/transport-error loss the manager never reports `disconnected`,
so the provider's `synced` flag survives unchanged. -/
theorem c3_loss_of_connection (s : CMState) (p : ProvState) (j : ℚ)
    (hc : p.connected = true) (hs : p.synced = true) :
    ((deliverStatuses p (handleClose j s).2).synced = false ∧
      ProvEvent.syncedEvt false ∈ (deliverStatuses p (handleClose j s).2).events) ∧
    (ConnStatus.disconnected ∉ (handleError j s).2 ∧
      (deliverStatuses p (handleError j s).2).synced = true) := by
  by_cases hd : s.destroyed <;>
    by_cases hm : s.maxReconnectAttempts ≤ s.reconnectAttempts <;>
    simp [handleClose, handleError, scheduleReconnect, cleanup, deliverStatuses,
      handleStatusChange, hd, hm, hc, hs]

/-- C3 witness: the amended statement at a connected manager and a
synced provider with zero jitter. -/
theorem c3_loss_of_connection_witness :
    (connectedProv.connected = true ∧ connectedProv.synced = true) ∧
    ((deliverStatuses connectedProv (handleClose 0 connectedCM).2).synced = false ∧
      ProvEvent.syncedEvt false ∈
        (deliverStatuses connectedProv (handleClose 0 connectedCM).2).events) ∧
    (ConnStatus.disconnected ∉ (handleError 0 connectedCM).2 ∧
      (deliverStatuses connectedProv (handleError 0 connectedCM).2).synced = true) :=
  ⟨⟨rfl, rfl⟩, c3_loss_of_connection connectedCM connectedProv 0 rfl rfl⟩

/-- C3 counterexample: a connected manager that loses its connection
through the error path reports only `reconnecting` — never
`disconnected` — and the previously synced provider keeps
`synced = true`. -/
theorem c3_error_path_counterexample :
    ConnStatus.disconnected ∉ (handleError 0 connectedCM).2 ∧
    (deliverStatuses connectedProv (handleError 0 connectedCM).2).synced = true ∧
    (handleError 0 connectedCM).2 = [ConnStatus.reconnecting] := by
  decide

/-- C4: `disconnect()` on a connected, non-destroyed manager cancels
the timer, requests a `(1000, "Client disconnect")` transport close
and reports `disconnected` — but when the transport's close-completion
callback subsequently runs `handleClose`, a reconnect timer *is*
armed and `reconnecting` is reported, contradicting the claim that no
reconnect is ever scheduled as a consequence of the disconnect. -/
theorem c4_disconnect_then_close_schedules_reconnect :
    ((disconnect connectedCM).1.reconnectTimer = none ∧
     (disconnect connectedCM).1.closeRequests = [(1000, "Client disconnect")] ∧
     (disconnect connectedCM).2 = [ConnStatus.disconnected]) ∧
    ((handleClose 0 (disconnect connectedCM).1).1.reconnectTimer ≠ none ∧
     ConnStatus.reconnecting ∈ (handleClose 0 (disconnect connectedCM).1).2) := by
  decide

/-- C5: with `attempts < maxAttempts` and jitter in `[0, 1000)`, the
reconnect policy reports `reconnecting`, increments `attempts`, and
arms the timer with `min(baseDelay * 2 ^ attempts + jitter, maxDelay)`
— a delay between `baseDelay * 2 ^ k` and `baseDelay * 2 ^ k + 1000`,
both capped at `maxDelay`, for `k` the number of prior failures. -/
theorem c5_reconnect_backoff (s : CMState) (j : ℚ)
    (h : s.reconnectAttempts < s.maxReconnectAttempts)
    (hj0 : 0 ≤ j) (hj1 : j < 1000) :
    (scheduleReconnect j s).2 = [ConnStatus.reconnecting] ∧
    (scheduleReconnect j s).1.reconnectAttempts = s.reconnectAttempts + 1 ∧
    (scheduleReconnect j s).1.reconnectTimer =
      some (min (s.reconnectBaseDelay * 2 ^ s.reconnectAttempts + j) s.reconnectMaxDelay) ∧
    min (s.reconnectBaseDelay * 2 ^ s.reconnectAttempts) s.reconnectMaxDelay ≤
      min (s.reconnectBaseDelay * 2 ^ s.reconnectAttempts + j) s.reconnectMaxDelay ∧
    min (s.reconnectBaseDelay * 2 ^ s.reconnectAttempts + j) s.reconnectMaxDelay ≤
      min (s.reconnectBaseDelay * 2 ^ s.reconnectAttempts + 1000) s.reconnectMaxDelay := by
  unfold scheduleReconnect
  rw [if_neg (by omega)]
  refine ⟨rfl, rfl, rfl, ?_, ?_⟩
  · exact min_le_min (by linarith) le_rfl
  · exact min_le_min (by linarith) le_rfl

/-- C5 witness: the policy at a fresh connected manager with jitter
250 ms. -/
theorem c5_reconnect_backoff_witness :
    (connectedCM.reconnectAttempts < connectedCM.maxReconnectAttempts ∧
      (0 : ℚ) ≤ 250 ∧ (250 : ℚ) < 1000) ∧
    (scheduleReconnect 250 connectedCM).2 = [ConnStatus.reconnecting] ∧
    (scheduleReconnect 250 connectedCM).1.reconnectAttempts =
      connectedCM.reconnectAttempts + 1 :=
  ⟨⟨by decide, by norm_num, by norm_num⟩,
    (c5_reconnect_backoff connectedCM 250 (by decide) (by norm_num) (by norm_num)).1,
    (c5_reconnect_backoff connectedCM 250 (by decide) (by norm_num) (by norm_num)).2.1⟩

/-- A `handleError` that produced any status report did so via the
reconnect policy's scheduling branch: the attempt counter was
incremented below its bound. -/
theorem handleError_sched (j : ℚ) (s : CMState) (h : (handleError j s).2 ≠ []) :
    (handleError j s).1.reconnectAttempts = s.reconnectAttempts + 1 ∧
    s.reconnectAttempts < s.maxReconnectAttempts ∧
    (handleError j s).1.maxReconnectAttempts = s.maxReconnectAttempts ∧
    (handleError j s).1.destroyed = s.destroyed := by
  by_cases hd : s.destroyed <;>
    by_cases hm : s.maxReconnectAttempts ≤ s.reconnectAttempts <;>
    simp [handleError, scheduleReconnect, cleanup, hd, hm] at h ⊢
  omega

/-- On a non-destroyed manager, `handleError` re-enters the reconnect
loop exactly when attempts remain. -/
theorem handleError_run (j : ℚ) (s : CMState) (hd : s.destroyed = false) :
    (s.maxReconnectAttempts ≤ s.reconnectAttempts → (handleError j s).2 = []) ∧
    (s.reconnectAttempts < s.maxReconnectAttempts → (handleError j s).2 ≠ []) := by
  by_cases hm : s.maxReconnectAttempts ≤ s.reconnectAttempts <;>
    simp [handleError, scheduleReconnect, cleanup, hd, hm]

theorem failingRun_count (j : ℚ) : ∀ (n : Nat) (s : CMState), s.destroyed = false →
    s.maxReconnectAttempts - s.reconnectAttempts = n →
    failingRun j s = n + 1 := by
  intro n
  induction n with
  | zero =>
    intro s hd hn
    rw [failingRun, dif_pos ((handleError_run j s hd).1 (by omega))]
  | succ m ih =>
    intro s hd hn
    have hlt : s.reconnectAttempts < s.maxReconnectAttempts := by omega
    have hne := (handleError_run j s hd).2 hlt
    rw [failingRun, dif_neg hne]
    have h3 := handleError_sched j s hne
    have := ih { (handleError j s).1 with reconnectTimer := none }
      (by simp [h3.2.2.2, hd]) (by simp [h3.1, h3.2.2.1]; omega)
    omega

/-- C6: against a transport whose open always fails, a fresh
non-destroyed manager with `maxReconnectAttempts = n` performs exactly
`n + 1` transport opens (the initial connect plus `n` reconnects) and
then stops; once `attempts ≥ maxAttempts` the reconnect policy leaves
the state untouched and schedules nothing. -/
theorem c6_attempt_exhaustion (n : Nat) (j : ℚ) (s : CMState)
    (hd : s.destroyed = false) (h0 : s.reconnectAttempts = 0)
    (hm : s.maxReconnectAttempts = n) :
    failingRun j s = n + 1 ∧
    ∀ t : CMState, t.maxReconnectAttempts ≤ t.reconnectAttempts →
      scheduleReconnect j t = (t, []) := by
  constructor
  · exact failingRun_count j n s hd (by omega)
  · intro t ht
    simp [scheduleReconnect, ht]

/-- C6 witness: the spec's scenario (`maxAttempts = 3`) performs
exactly 4 opens. -/
theorem c6_attempt_exhaustion_witness :
    (alwaysFailCM.destroyed = false ∧ alwaysFailCM.reconnectAttempts = 0 ∧
      alwaysFailCM.maxReconnectAttempts = 3) ∧
    failingRun 0 alwaysFailCM = 3 + 1 :=
  ⟨⟨rfl, rfl, rfl⟩, (c6_attempt_exhaustion 3 0 alwaysFailCM rfl rfl rfl).1⟩

/-- A datagram shorter than 8 bytes fails header decoding. -/
theorem decodeAwarenessDatagram_short (data : List Nat) (h : data.length < 8) :
    ∃ e, decodeAwarenessDatagram data = Except.error e := by
  match data with
  | [] => exact ⟨_, rfl⟩
  | [_] => exact ⟨_, rfl⟩
  | [_, _] => exact ⟨_, rfl⟩
  | [_, _, _] => exact ⟨_, rfl⟩
  | [_, _, _, _] => exact ⟨_, rfl⟩
  | [_, _, _, _, _] => exact ⟨_, rfl⟩
  | [_, _, _, _, _, _] => exact ⟨_, rfl⟩
  | [_, _, _, _, _, _, _] => exact ⟨_, rfl⟩
  | _ :: _ :: _ :: _ :: _ :: _ :: _ :: _ :: _ => exact absurd h (by simp)

/-- C7 (amended): the datagram pipeline drops short datagrams, echoes
and stale clocks without any state change; a fresh clock with a
decodable state updates the recorded clock, applies the state and
emits one `(added: [], updated: [clientId], removed: [])` change with
origin `"remote-datagram"`; a fresh clock whose state bytes fail to
decode is discarded without throwing *after* the recorded clock has
already been updated. -/
theorem c7_datagram_pipeline (now : Nat) (am : AMState) :
    (∀ data, data.length < 8 → handleDatagram now data am = am) ∧
    (∀ data cid clk sb, decodeAwarenessDatagram data = Except.ok (cid, clk, sb) →
      cid = am.localClientID → handleDatagram now data am = am) ∧
    (∀ data cid clk sb, decodeAwarenessDatagram data = Except.ok (cid, clk, sb) →
      cid ≠ am.localClientID → clk ≤ mapGetD am.remoteClocks cid →
      handleDatagram now data am = am) ∧
    (∀ data cid clk sb st, decodeAwarenessDatagram data = Except.ok (cid, clk, sb) →
      cid ≠ am.localClientID → mapGetD am.remoteClocks cid < clk →
      decodeState sb = some st →
      handleDatagram now data am =
        { am with
          remoteClocks := mapSet am.remoteClocks cid clk,
          remoteField := some (cid, st, clk, now),
          changeEvents := am.changeEvents ++
            [{ added := [], updated := [cid], removed := [],
               origin := "remote-datagram" }] }) ∧
    (∀ data cid clk sb, decodeAwarenessDatagram data = Except.ok (cid, clk, sb) →
      cid ≠ am.localClientID → mapGetD am.remoteClocks cid < clk →
      decodeState sb = none →
      handleDatagram now data am =
        { am with remoteClocks := mapSet am.remoteClocks cid clk }) := by
  refine ⟨?_, ?_, ?_, ?_, ?_⟩
  · intro data h
    obtain ⟨e, he⟩ := decodeAwarenessDatagram_short data h
    simp [handleDatagram, he]
  · intro data cid clk sb hdec hcid
    simp [handleDatagram, hdec, hcid]
  · intro data cid clk sb hdec hcid hclk
    simp [handleDatagram, hdec, hcid, hclk]
  · intro data cid clk sb st hdec hcid hclk hst
    simp [handleDatagram, hdec, hcid, hst, Nat.not_le.mpr hclk]
  · intro data cid clk sb hdec hcid hclk hst
    simp [handleDatagram, hdec, hcid, hst, Nat.not_le.mpr hclk]

/-- C7 witness: a datagram from client 1 with clock 2 carrying the
state bytes of an empty JSON object, received by a fresh manager. -/
theorem c7_datagram_pipeline_witness :
    (decodeAwarenessDatagram [0, 0, 0, 1, 0, 0, 0, 2, 123, 125] =
        Except.ok (1, 2, [123, 125]) ∧
      (1 : Nat) ≠ freshAM.localClientID ∧
      mapGetD freshAM.remoteClocks 1 < 2 ∧
      decodeState [123, 125] = some (JVal.jobj [])) ∧
    handleDatagram 7 [0, 0, 0, 1, 0, 0, 0, 2, 123, 125] freshAM =
      { freshAM with
        remoteClocks := mapSet freshAM.remoteClocks 1 2,
        remoteField := some (1, JVal.jobj [], 2, 7),
        changeEvents := freshAM.changeEvents ++
          [{ added := [], updated := [1], removed := [],
             origin := "remote-datagram" }] } :=
  ⟨⟨rfl, by decide, by decide, rfl⟩,
    (c7_datagram_pipeline 7 freshAM).2.2.2.1 [0, 0, 0, 1, 0, 0, 0, 2, 123, 125]
      1 2 [123, 125] (JVal.jobj []) rfl (by decide) (by decide) rfl⟩

/-- C7 counterexample: the 8-byte datagram from client 1 with clock 1
and *empty* state bytes is malformed (`JSON.parse` of the empty string
throws), yet handling it mutates the pipeline state: the recorded
clock for client 1 becomes 1, while no state is applied and no change
event is emitted. -/
theorem c7_malformed_state_counterexample :
    decodeState [] = none ∧
    (handleDatagram 0 [0, 0, 0, 1, 0, 0, 0, 1] freshAM).remoteClocks = [(1, 1)] ∧
    (handleDatagram 0 [0, 0, 0, 1, 0, 0, 0, 1] freshAM).changeEvents = [] ∧
    (handleDatagram 0 [0, 0, 0, 1, 0, 0, 0, 1] freshAM).remoteField = none :=
  ⟨rfl, rfl, rfl, rfl⟩

/-- C9: `destroy()` is idempotent, but it does not unsubscribe the
update handler: `doc.off` receives a freshly bound function, so the
handler registered by the constructor (function id 0) is still invoked
by a subsequent document update. -/
theorem c9_destroy_keeps_doc_subscription :
    providerDestroy (providerDestroy mkProvider) = providerDestroy mkProvider ∧
    docUpdateInvokes mkProvider = [0] ∧
    docUpdateInvokes (providerDestroy mkProvider) = [0] := by
  decide

/-- C10: the stream-message handler dispatches nothing exactly on the
zero-length frame: an empty payload returns immediately with no
action, and every non-empty payload produces some dispatch. -/
theorem c10_empty_frame_early_return (data : List Nat) :
    handleSyncMessage data = SyncAction.noop ↔ data = [] := by
  cases data with
  | nil => simp [handleSyncMessage]
  | cons t rest =>
    simp only [handleSyncMessage, List.length_cons, List.headI]
    split_ifs <;> simp_all

end YWebTransport
